import Mathlib

/-!
Shallow embedding of the mv-redux linear-algebra library (TypeScript).

Numbers are modelled as exact rationals (`ℚ`).  Vectors are records of
components; matrices are records of column vectors, mirroring the library's
column-major storage (`matrix[column][row]`, see src/src/mat.ts).  The
dynamically-dispatched operations (`mult`, `mix`, …) act on a tagged union
`MVal` that mirrors the `AnyVector | AnyMatrix | number` runtime dispatch,
and fallible operations return `Except String`.  Platform functions that a
rational model cannot evaluate exactly (`Math.sqrt`, `Math.sin`, `Math.cos`)
are passed as explicit function parameters where the embedded code uses them.
-/

namespace MV

/-- A 2-component vector (src/src/mv/mat.ts, `Vec2`): components `[0]`/`x`, `[1]`/`y`. -/
structure Vec2 where
  x : ℚ
  y : ℚ
deriving DecidableEq, Repr

/-- A 3-component vector (src/src/mv/mat.ts, `Vec3`). -/
structure Vec3 where
  x : ℚ
  y : ℚ
  z : ℚ
deriving DecidableEq, Repr

/-- A 4-component vector (src/src/mv/mat.ts, `Vec4`). -/
structure Vec4 where
  x : ℚ
  y : ℚ
  z : ℚ
  w : ℚ
deriving DecidableEq, Repr

/-- A 2×2 matrix as two column vectors (src/src/mat.ts, `Mat2`):
`m[j][i]` in the source is column `j`, row `i`, here field `i` of `cj`. -/
structure Mat2 where
  c0 : Vec2
  c1 : Vec2
deriving DecidableEq, Repr

/-- A 3×3 matrix as three column vectors (src/src/mat.ts, `Mat3`). -/
structure Mat3 where
  c0 : Vec3
  c1 : Vec3
  c2 : Vec3
deriving DecidableEq, Repr

/-- A 4×4 matrix as four column vectors (src/src/mat.ts, `Mat4`). -/
structure Mat4 where
  c0 : Vec4
  c1 : Vec4
  c2 : Vec4
  c3 : Vec4
deriving DecidableEq, Repr

/-- The `AnyVector` union (src/src/mv/mat.ts): the constructor carries the
runtime `type` tag (`vec2` / `vec3` / `vec4`). -/
inductive AnyVector where
  | v2 (v : Vec2)
  | v3 (v : Vec3)
  | v4 (v : Vec4)
deriving DecidableEq, Repr

/-- The `AnyMatrix` union (src/src/mat.ts): the constructor carries the
runtime `type` tag (`mat2` / `mat3` / `mat4`). -/
inductive AnyMatrix where
  | m2 (m : Mat2)
  | m3 (m : Mat3)
  | m4 (m : Mat4)
deriving DecidableEq, Repr

/-- The union `AnyVector | AnyMatrix | number` over which the overloaded
operations of src/src/ops.ts dispatch at runtime. -/
inductive MVal where
  | num (n : ℚ)
  | vec (v : AnyVector)
  | mat (m : AnyMatrix)
deriving DecidableEq, Repr

/-- Bool test for an error result of a fallible operation. -/
def isErr {α : Type} : Except String α → Bool
  | .error _ => true
  | .ok _ => false

instance {ε α : Type} [DecidableEq ε] [DecidableEq α] : DecidableEq (Except ε α) := fun a b =>
  match a, b with
  | .error e, .error f =>
      decidable_of_iff (e = f) ⟨fun h => by rw [h], fun h => by injection h⟩
  | .error _, .ok _ => isFalse (fun h => Except.noConfusion h)
  | .ok _, .error _ => isFalse (fun h => Except.noConfusion h)
  | .ok a, .ok b =>
      decidable_of_iff (a = b) ⟨fun h => by rw [h], fun h => by injection h⟩

/-!  Typed single-branch helpers used inside `det` / `inverse` /
`rotationMatrix`.  Each mirrors one concrete branch of the corresponding
dispatcher in src/src/ops.ts, at the (vec3, vec3) or (vec3, number) shapes
the source actually calls it with. -/

/-- The `vec3 × vec3` branch of `cross` (src/src/ops.ts lines 490-508):
`vec3(u[1]*v[2] - u[2]*v[1], u[2]*v[0] - u[0]*v[2], u[0]*v[1] - u[1]*v[0])`. -/
def cross3 (u v : Vec3) : Vec3 :=
  ⟨u.y * v.z - u.z * v.y,
   u.z * v.x - u.x * v.z,
   u.x * v.y - u.y * v.x⟩

/-- The `vec3 ⋅ vec3` branch of `dot` (src/src/ops.ts lines 469-470). -/
def dot3 (u v : Vec3) : ℚ :=
  u.x * v.x + u.y * v.y + u.z * v.z

/-- The `vec3 - vec3` branch of `sub` (src/src/ops.ts lines 202-203). -/
def sub3 (u v : Vec3) : Vec3 :=
  ⟨u.x - v.x, u.y - v.y, u.z - v.z⟩

/-- The `vec3 + vec3` branch of `add` (src/src/ops.ts lines 131-132). -/
def add3 (u v : Vec3) : Vec3 :=
  ⟨u.x + v.x, u.y + v.y, u.z + v.z⟩

/-- The scalar branch of `mult` at a `vec3` (src/src/ops.ts line 382):
`vec3(mat[0] * num, mat[1] * num, mat[2] * num)`; the source reaches this
branch for either operand order (`mult(y, a)` and `mult(s, invDet)` alike). -/
def mulVN3 (v : Vec3) (n : ℚ) : Vec3 :=
  ⟨v.x * n, v.y * n, v.z * n⟩

/-- The call `vec3(m[i])` on a `Vec4` column (src/src/ops.ts lines 635-638):
the flattening `vec3` constructor keeps the first three of the four
components, i.e. the top three rows of the column. -/
def vec3ofVec4 (v : Vec4) : Vec3 :=
  ⟨v.x, v.y, v.z⟩

/-!  The overloaded `mult` (src/src/ops.ts lines 310-455).  Branches appear
in source order: matrix×matrix, scalar cases, matrix×vector, vector×vector,
then the error classification of the fall-through.  The big products are
transcribed entry by entry; `u[j][i]` in the source is `a.cj.⟨i⟩` here
(component 0/1/2/3 = x/y/z/w).  Error messages are abridged (the spec marks
message text as not load-bearing); the classification of which message fires
follows the source. -/

/-- The overloaded `mult` dispatcher of src/src/ops.ts (lines 310-455). -/
def mult (u v : MVal) : Except String MVal :=
  match u, v with
  -- isMatrix(u) && isMatrix(v), same shape (lines 311-364)
  | .mat (.m4 a), .mat (.m4 b) =>
      .ok (.mat (.m4 ⟨
        -- col 0 (source lines 315-318): row i = Σ_k u[0][k] * v[k][i]
        ⟨a.c0.x * b.c0.x + a.c0.y * b.c1.x + a.c0.z * b.c2.x + a.c0.w * b.c3.x,
         a.c0.x * b.c0.y + a.c0.y * b.c1.y + a.c0.z * b.c2.y + a.c0.w * b.c3.y,
         a.c0.x * b.c0.z + a.c0.y * b.c1.z + a.c0.z * b.c2.z + a.c0.w * b.c3.z,
         a.c0.x * b.c0.w + a.c0.y * b.c1.w + a.c0.z * b.c2.w + a.c0.w * b.c3.w⟩,
        -- col 1 (lines 320-323)
        ⟨a.c1.x * b.c0.x + a.c1.y * b.c1.x + a.c1.z * b.c2.x + a.c1.w * b.c3.x,
         a.c1.x * b.c0.y + a.c1.y * b.c1.y + a.c1.z * b.c2.y + a.c1.w * b.c3.y,
         a.c1.x * b.c0.z + a.c1.y * b.c1.z + a.c1.z * b.c2.z + a.c1.w * b.c3.z,
         a.c1.x * b.c0.w + a.c1.y * b.c1.w + a.c1.z * b.c2.w + a.c1.w * b.c3.w⟩,
        -- col 2 (lines 325-328)
        ⟨a.c2.x * b.c0.x + a.c2.y * b.c1.x + a.c2.z * b.c2.x + a.c2.w * b.c3.x,
         a.c2.x * b.c0.y + a.c2.y * b.c1.y + a.c2.z * b.c2.y + a.c2.w * b.c3.y,
         a.c2.x * b.c0.z + a.c2.y * b.c1.z + a.c2.z * b.c2.z + a.c2.w * b.c3.z,
         a.c2.x * b.c0.w + a.c2.y * b.c1.w + a.c2.z * b.c2.w + a.c2.w * b.c3.w⟩,
        -- col 3 (lines 330-333)
        ⟨a.c3.x * b.c0.x + a.c3.y * b.c1.x + a.c3.z * b.c2.x + a.c3.w * b.c3.x,
         a.c3.x * b.c0.y + a.c3.y * b.c1.y + a.c3.z * b.c2.y + a.c3.w * b.c3.y,
         a.c3.x * b.c0.z + a.c3.y * b.c1.z + a.c3.z * b.c2.z + a.c3.w * b.c3.z,
         a.c3.x * b.c0.w + a.c3.y * b.c1.w + a.c3.z * b.c2.w + a.c3.w * b.c3.w⟩⟩))
  | .mat (.m3 a), .mat (.m3 b) =>
      .ok (.mat (.m3 ⟨
        -- col 0 (lines 340-342)
        ⟨a.c0.x * b.c0.x + a.c0.y * b.c1.x + a.c0.z * b.c2.x,
         a.c0.x * b.c0.y + a.c0.y * b.c1.y + a.c0.z * b.c2.y,
         a.c0.x * b.c0.z + a.c0.y * b.c1.z + a.c0.z * b.c2.z⟩,
        -- col 1 (lines 344-346)
        ⟨a.c1.x * b.c0.x + a.c1.y * b.c1.x + a.c1.z * b.c2.x,
         a.c1.x * b.c0.y + a.c1.y * b.c1.y + a.c1.z * b.c2.y,
         a.c1.x * b.c0.z + a.c1.y * b.c1.z + a.c1.z * b.c2.z⟩,
        -- col 2 (lines 348-350)
        ⟨a.c2.x * b.c0.x + a.c2.y * b.c1.x + a.c2.z * b.c2.x,
         a.c2.x * b.c0.y + a.c2.y * b.c1.y + a.c2.z * b.c2.y,
         a.c2.x * b.c0.z + a.c2.y * b.c1.z + a.c2.z * b.c2.z⟩⟩))
  | .mat (.m2 a), .mat (.m2 b) =>
      .ok (.mat (.m2 ⟨
        -- col 0 (lines 357-358)
        ⟨a.c0.x * b.c0.x + a.c0.y * b.c1.x,
         a.c0.x * b.c0.y + a.c0.y * b.c1.y⟩,
        -- col 1 (lines 360-361)
        ⟨a.c1.x * b.c0.x + a.c1.y * b.c1.x,
         a.c1.x * b.c0.y + a.c1.y * b.c1.y⟩⟩))
  -- (matrix or vector) × scalar, either operand order (lines 366-400)
  | .vec (.v4 a), .num n | .num n, .vec (.v4 a) =>
      .ok (.vec (.v4 ⟨a.x * n, a.y * n, a.z * n, a.w * n⟩))
  | .vec (.v3 a), .num n | .num n, .vec (.v3 a) =>
      .ok (.vec (.v3 (mulVN3 a n)))
  | .vec (.v2 a), .num n | .num n, .vec (.v2 a) =>
      .ok (.vec (.v2 ⟨a.x * n, a.y * n⟩))
  | .mat (.m4 a), .num n | .num n, .mat (.m4 a) =>
      .ok (.mat (.m4 ⟨
        ⟨a.c0.x * n, a.c0.y * n, a.c0.z * n, a.c0.w * n⟩,
        ⟨a.c1.x * n, a.c1.y * n, a.c1.z * n, a.c1.w * n⟩,
        ⟨a.c2.x * n, a.c2.y * n, a.c2.z * n, a.c2.w * n⟩,
        ⟨a.c3.x * n, a.c3.y * n, a.c3.z * n, a.c3.w * n⟩⟩))
  | .mat (.m3 a), .num n | .num n, .mat (.m3 a) =>
      .ok (.mat (.m3 ⟨
        ⟨a.c0.x * n, a.c0.y * n, a.c0.z * n⟩,
        ⟨a.c1.x * n, a.c1.y * n, a.c1.z * n⟩,
        ⟨a.c2.x * n, a.c2.y * n, a.c2.z * n⟩⟩))
  | .mat (.m2 a), .num n | .num n, .mat (.m2 a) =>
      .ok (.mat (.m2 ⟨
        ⟨a.c0.x * n, a.c0.y * n⟩,
        ⟨a.c1.x * n, a.c1.y * n⟩⟩))
  -- isMatrix(u) && isVector(v), matching sizes (lines 402-426)
  | .mat (.m4 a), .vec (.v4 b) =>
      .ok (.vec (.v4 ⟨
        a.c0.x * b.x + a.c0.y * b.y + a.c0.z * b.z + a.c0.w * b.w,
        a.c1.x * b.x + a.c1.y * b.y + a.c1.z * b.z + a.c1.w * b.w,
        a.c2.x * b.x + a.c2.y * b.y + a.c2.z * b.z + a.c2.w * b.w,
        a.c3.x * b.x + a.c3.y * b.y + a.c3.z * b.z + a.c3.w * b.w⟩))
  | .mat (.m3 a), .vec (.v3 b) =>
      .ok (.vec (.v3 ⟨
        a.c0.x * b.x + a.c0.y * b.y + a.c0.z * b.z,
        a.c1.x * b.x + a.c1.y * b.y + a.c1.z * b.z,
        a.c2.x * b.x + a.c2.y * b.y + a.c2.z * b.z⟩))
  | .mat (.m2 a), .vec (.v2 b) =>
      .ok (.vec (.v2 ⟨
        a.c0.x * b.x + a.c0.y * b.y,
        a.c1.x * b.x + a.c1.y * b.y⟩))
  -- isVector(u) && isVector(v), same shape: Hadamard product (lines 428-437)
  | .vec (.v4 a), .vec (.v4 b) =>
      .ok (.vec (.v4 ⟨a.x * b.x, a.y * b.y, a.z * b.z, a.w * b.w⟩))
  | .vec (.v3 a), .vec (.v3 b) =>
      .ok (.vec (.v3 ⟨a.x * b.x, a.y * b.y, a.z * b.z⟩))
  | .vec (.v2 a), .vec (.v2 b) =>
      .ok (.vec (.v2 ⟨a.x * b.x, a.y * b.y⟩))
  -- fall-through error classification (lines 439-455)
  | .vec _, .mat _ =>
      .error "Invalid arguments passed to mult: matrix must be the left-hand operand."
  | .mat _, .vec _ =>
      .error "Invalid arguments passed to mult: matrix and vector operands must be the same size."
  | _, _ =>
      .error "Invalid arguments passed to mult: expected (Matrix * Matrix), (Matrix * Vector), (scalar * Matrix), (Matrix * scalar), (scalar * Vector), (Vector * scalar), or (Vector * Vector)."

/-- The 3-number overload of `translationMatrix` (src/src/init/canvas.ts
lines 302-333): `mat4(1,0,0,0, 0,1,0,0, 0,0,1,0, x,y,z,1)` with the sixteen
arguments read in column-major order. -/
def translationMatrix (x y z : ℚ) : Mat4 :=
  ⟨⟨1, 0, 0, 0⟩,
   ⟨0, 1, 0, 0⟩,
   ⟨0, 0, 1, 0⟩,
   ⟨x, y, z, 1⟩⟩

/-- Spec formula for the matrix-vector product at the 2×2 shape.  Follows
the spec's words (claim C2): component `i` of the result is
`Σ_k m[k][i] * v[k]` over the column-major entries. -/
def specMultMatVec2 (m : Mat2) (v : Vec2) : Vec2 :=
  ⟨m.c0.x * v.x + m.c1.x * v.y,
   m.c0.y * v.x + m.c1.y * v.y⟩

/-- Spec formula for the matrix product at the 2×2 shape.  Follows the
spec's words (claim C3): the entry at column `j`, row `i` of the result is
`Σ_k a[k][i] * b[j][k]`. -/
def specMultMat2 (a b : Mat2) : Mat2 :=
  ⟨⟨a.c0.x * b.c0.x + a.c1.x * b.c0.y,
    a.c0.y * b.c0.x + a.c1.y * b.c0.y⟩,
   ⟨a.c0.x * b.c1.x + a.c1.x * b.c1.y,
    a.c0.y * b.c1.x + a.c1.y * b.c1.y⟩⟩

/-!  Matrix algebra: `det` and `inverse` (src/src/ops.ts lines 625-761).
Both are transcribed branch by branch; the runtime `isMatrix` guard and its
error path are unreachable here because the argument is already an
`AnyMatrix`. -/

/-- The `det` of src/src/ops.ts (lines 625-673).  Note the 4×4 branch
computes `t = cross(c, b)` (line 648), exactly as the source does. -/
def det (m : AnyMatrix) : ℚ :=
  match m with
  | .m4 m =>
      -- columns restricted to their top three rows (lines 635-638)
      let a := vec3ofVec4 m.c0
      let b := vec3ofVec4 m.c1
      let c := vec3ofVec4 m.c2
      let d := vec3ofVec4 m.c3
      -- the bottom row (lines 641-644)
      let x := m.c0.w
      let y := m.c1.w
      let z := m.c2.w
      let w := m.c3.w
      -- intermediate vectors (lines 647-650)
      let s := cross3 a b
      let t := cross3 c b
      let u := sub3 (mulVN3 a y) (mulVN3 b x)
      let v := sub3 (mulVN3 c w) (mulVN3 d z)
      dot3 s v + dot3 t u
  | .m3 m =>
      -- scalar triple product of the three columns (lines 660-663)
      dot3 (cross3 m.c0 m.c1) m.c2
  | .m2 m =>
      -- m[0][0] * m[1][1] - m[1][0] * m[0][1] (line 667)
      m.c0.x * m.c1.y - m.c1.x * m.c0.y

/-- The `inverse` of src/src/ops.ts (lines 683-761); the 4×4 branch follows
FGED listing 1.11 with `t = cross(c, d)` (line 705). -/
def inverse (m : AnyMatrix) : AnyMatrix :=
  match m with
  | .m4 m =>
      let a := vec3ofVec4 m.c0
      let b := vec3ofVec4 m.c1
      let c := vec3ofVec4 m.c2
      let d := vec3ofVec4 m.c3
      let x := m.c0.w
      let y := m.c1.w
      let z := m.c2.w
      let w := m.c3.w
      -- intermediate vectors (lines 704-707)
      let s := cross3 a b
      let t := cross3 c d
      let u := sub3 (mulVN3 a y) (mulVN3 b x)
      let v := sub3 (mulVN3 c w) (mulVN3 d z)
      let invDet := 1 / (dot3 s v + dot3 t u)
      let s1 := mulVN3 s invDet
      let t1 := mulVN3 t invDet
      let u1 := mulVN3 u invDet
      let v1 := mulVN3 v invDet
      let r0 := add3 (cross3 b v1) (mulVN3 t1 y)
      let r1 := sub3 (cross3 v1 a) (mulVN3 t1 x)
      let r2 := add3 (cross3 d u1) (mulVN3 s1 w)
      let r3 := sub3 (cross3 u1 c) (mulVN3 s1 z)
      -- sixteen constructor arguments in column-major order (lines 720-725)
      .m4 ⟨⟨r0.x, r1.x, r2.x, r3.x⟩,
           ⟨r0.y, r1.y, r2.y, r3.y⟩,
           ⟨r0.z, r1.z, r2.z, r3.z⟩,
           ⟨-(dot3 b t1), dot3 a t1, -(dot3 d s1), dot3 c s1⟩⟩
  | .m3 m =>
      -- cross products of the columns laid out row by row (lines 733-746)
      let r0 := cross3 m.c1 m.c2
      let r1 := cross3 m.c2 m.c0
      let r2 := cross3 m.c0 m.c1
      let invDet := 1 / dot3 r2 m.c2
      .m3 ⟨⟨r0.x * invDet, r1.x * invDet, r2.x * invDet⟩,
           ⟨r0.y * invDet, r1.y * invDet, r2.y * invDet⟩,
           ⟨r0.z * invDet, r1.z * invDet, r2.z * invDet⟩⟩
  | .m2 m =>
      -- invDet * m[1][1], invNeg * m[0][1], invNeg * m[1][0], invDet * m[0][0]
      -- (lines 750-755)
      let invDet := 1 / det (.m2 m)
      let invNeg := -invDet
      .m2 ⟨⟨invDet * m.c1.y, invNeg * m.c0.y⟩,
           ⟨invNeg * m.c1.x, invDet * m.c0.x⟩⟩

/-- Identity `mat2` (the zero-argument `mat2()` default, src/src/mat.ts
lines 73-76). -/
def mat2Id : Mat2 := ⟨⟨1, 0⟩, ⟨0, 1⟩⟩

/-- Identity `mat3` (the zero-argument `mat3()` default, src/src/mat.ts
lines 184-188). -/
def mat3Id : Mat3 := ⟨⟨1, 0, 0⟩, ⟨0, 1, 0⟩, ⟨0, 0, 1⟩⟩

/-- Identity `mat4` (the zero-argument `mat4()` default, src/src/mat.ts
lines 324-329). -/
def mat4Id : Mat4 := ⟨⟨1, 0, 0, 0⟩, ⟨0, 1, 0, 0⟩, ⟨0, 0, 1, 0⟩, ⟨0, 0, 0, 1⟩⟩

/-- The identity matrix of the same shape as the argument. -/
def idLike (m : AnyMatrix) : AnyMatrix :=
  match m with
  | .m2 _ => .m2 mat2Id
  | .m3 _ => .m3 mat3Id
  | .m4 _ => .m4 mat4Id

/-- Mathematical determinant of a 2×2 column-major matrix (spec-side
definition for comparison: the determinant of the matrix whose entry at
row `r`, column `c` is `m[c][r]`). -/
def specDet2 (m : Mat2) : ℚ :=
  m.c0.x * m.c1.y - m.c1.x * m.c0.y

/-- Mathematical determinant of a 3×3 column-major matrix (spec-side
definition): the standard expansion of the matrix with entry `m[c][r]` at
row `r`, column `c`. -/
def specDet3 (m : Mat3) : ℚ :=
  m.c0.x * (m.c1.y * m.c2.z - m.c2.y * m.c1.z)
    - m.c1.x * (m.c0.y * m.c2.z - m.c2.y * m.c0.z)
    + m.c2.x * (m.c0.y * m.c1.z - m.c1.y * m.c0.z)

/-- Mathematical determinant of a 4×4 column-major matrix (spec-side
definition): cofactor expansion along the first row of the matrix whose
entry at row `r`, column `c` is `m[c][r]`. -/
def specDet4 (m : Mat4) : ℚ :=
  m.c0.x * specDet3 ⟨⟨m.c1.y, m.c1.z, m.c1.w⟩, ⟨m.c2.y, m.c2.z, m.c2.w⟩, ⟨m.c3.y, m.c3.z, m.c3.w⟩⟩
    - m.c1.x * specDet3 ⟨⟨m.c0.y, m.c0.z, m.c0.w⟩, ⟨m.c2.y, m.c2.z, m.c2.w⟩, ⟨m.c3.y, m.c3.z, m.c3.w⟩⟩
    + m.c2.x * specDet3 ⟨⟨m.c0.y, m.c0.z, m.c0.w⟩, ⟨m.c1.y, m.c1.z, m.c1.w⟩, ⟨m.c3.y, m.c3.z, m.c3.w⟩⟩
    - m.c3.x * specDet3 ⟨⟨m.c0.y, m.c0.z, m.c0.w⟩, ⟨m.c1.y, m.c1.z, m.c1.w⟩, ⟨m.c2.y, m.c2.z, m.c2.w⟩⟩

/-- Mathematical determinant of a matrix of any of the three shapes. -/
def specDet (m : AnyMatrix) : ℚ :=
  match m with
  | .m2 m => specDet2 m
  | .m3 m => specDet3 m
  | .m4 m => specDet4 m

/-!  Variadic vector constructors (src/src/mv/mat.ts lines 745-965).  An
argument of `vec2`/`vec3`/`vec4` is a number, a flat numeric array, or a
tagged vector; `args.flat(1)` flattens each array-like argument (tagged
vectors are arrays at runtime) into its numbers.  The
`values.every(n => typeof n === 'number')` guard always passes in this
typed model, which covers exactly the argument kinds the spec admits. -/

/-- One argument of a variadic vector constructor:
`number | number[] | AnyVector`. -/
inductive Arg where
  | num (n : ℚ)
  | arr (l : List ℚ)
  | avec (v : AnyVector)
deriving DecidableEq, Repr

/-- The `typeof args[0] === number` test of the single-number broadcast
overload. -/
def Arg.isNum : Arg → Bool
  | .num _ => true
  | _ => false

/-- The numbers contributed by one argument under `args.flat(1)`. -/
def Arg.flat : Arg → List ℚ
  | .num n => [n]
  | .arr l => l
  | .avec (.v2 v) => [v.x, v.y]
  | .avec (.v3 v) => [v.x, v.y, v.z]
  | .avec (.v4 v) => [v.x, v.y, v.z, v.w]

/-- `const values = args.flat(1)` (src/src/mv/mat.ts lines 790, 861, 940). -/
def flattenArgs (args : List Arg) : List ℚ :=
  args.flatMap Arg.flat

/-- The `vec2` constructor (src/src/mv/mat.ts lines 783-808): zero-argument
form, single-number broadcast, then fill from the first two flattened
values; the final branch throws. -/
def vec2FromArgs (args : List Arg) : Except String Vec2 :=
  let values := flattenArgs args
  if args.length = 0 then
    .ok ⟨0, 0⟩
  else if args.length = 1 ∧ (args.headD (.num 0)).isNum = true then
    .ok ⟨values.headD 0, values.headD 0⟩
  else if 2 ≤ values.length then
    .ok ⟨values.getD 0 0, values.getD 1 0⟩
  else
    .error "Unreachable: array lengths must fall within range [0, INF)."

/-- The `vec3` constructor (src/src/mv/mat.ts lines 853-884). -/
def vec3FromArgs (args : List Arg) : Except String Vec3 :=
  let values := flattenArgs args
  if args.length = 0 then
    .ok ⟨0, 0, 0⟩
  else if args.length = 1 ∧ (args.headD (.num 0)).isNum = true then
    .ok ⟨values.headD 0, values.headD 0, values.headD 0⟩
  else if 3 ≤ values.length then
    .ok ⟨values.getD 0 0, values.getD 1 0, values.getD 2 0⟩
  else
    .error "Invalid arguments passed to vec3. Expected 0 numbers, 1 number, or a sequence of arguments with 3 or more total numbers between them."

/-- The `vec4` constructor (src/src/mv/mat.ts lines 931-965).  Unlike
`vec2`/`vec3`, its first branch tests `values.length == 0` — the number of
*flattened values* — rather than `args.length == 0`. -/
def vec4FromArgs (args : List Arg) : Except String Vec4 :=
  let values := flattenArgs args
  if values.length = 0 then
    .ok ⟨0, 0, 0, 0⟩
  else if args.length = 1 ∧ (args.headD (.num 0)).isNum = true then
    .ok ⟨values.headD 0, values.headD 0, values.headD 0, values.headD 0⟩
  else if 4 ≤ values.length then
    .ok ⟨values.getD 0 0, values.getD 1 0, values.getD 2 0, values.getD 3 0⟩
  else
    .error "Invalid arguments passed to vec4. Expected 0 numbers, 1 number, or a sequence of arguments with 4 or more total numbers between them."

/-- The scalar branch of `mult` at a `vec2` (src/src/ops.ts line 383). -/
def mulVN2 (v : Vec2) (n : ℚ) : Vec2 :=
  ⟨v.x * n, v.y * n⟩

/-- The scalar branch of `mult` at a `vec4` (src/src/ops.ts line 381). -/
def mulVN4 (v : Vec4) (n : ℚ) : Vec4 :=
  ⟨v.x * n, v.y * n, v.z * n, v.w * n⟩

/-- The `vec2 + vec2` branch of `add` (src/src/ops.ts lines 134-135). -/
def add2 (u v : Vec2) : Vec2 :=
  ⟨u.x + v.x, u.y + v.y⟩

/-- The `vec4 + vec4` branch of `add` (src/src/ops.ts lines 128-129). -/
def add4 (u v : Vec4) : Vec4 :=
  ⟨u.x + v.x, u.y + v.y, u.z + v.z, u.w + v.w⟩

/-- The ratio clamp of `mix` (src/src/ops.ts line 591):
`s = Math.min(1, Math.max(s, 0))`. -/
def clamp01 (s : ℚ) : ℚ :=
  min 1 (max s 0)

/-- The `mix` of src/src/ops.ts (lines 584-616).  The runtime check that
`s` is a number is subsumed by typing; the ratio is clamped to `[0, 1]`
before dispatch on the operands. -/
def mix (u v : MVal) (s : ℚ) : Except String MVal :=
  let s1 := clamp01 s
  let r := 1 - s1
  match u, v with
  | .num a, .num b => .ok (.num (r * a + s1 * b))
  | .vec (.v2 a), .vec (.v2 b) =>
      .ok (.vec (.v2 ⟨r * a.x + s1 * b.x, r * a.y + s1 * b.y⟩))
  | .vec (.v3 a), .vec (.v3 b) =>
      .ok (.vec (.v3 ⟨r * a.x + s1 * b.x, r * a.y + s1 * b.y, r * a.z + s1 * b.z⟩))
  | .vec (.v4 a), .vec (.v4 b) =>
      .ok (.vec (.v4 ⟨r * a.x + s1 * b.x, r * a.y + s1 * b.y,
                      r * a.z + s1 * b.z, r * a.w + s1 * b.w⟩))
  | .vec _, .vec _ =>
      .error "Invalid arguments passed to mix: vectors must be the same length."
  | _, _ =>
      .error "Invalid arguments passed to mix: expected either three numbers or two vectors and a number."

/-!  `magnitude` and `normalize` (src/src/ops.ts lines 513-558).  The
platform square root `Math.sqrt` is passed in as `sqrtF`; exact rational
arithmetic has no square root of its own.  The per-shape bodies mirror the
inlined source branches. -/

/-- The `vec2` branch of `normalize` (src/src/ops.ts lines 550-552):
`m` is the magnitude; if it is exactly zero the result is `vec2(0)` — the
single-number broadcast of `0`, i.e. the zero vector — otherwise each
component is divided by `m`. -/
def normalize2 (sqrtF : ℚ → ℚ) (v : Vec2) : Vec2 :=
  let m := sqrtF (v.x * v.x + v.y * v.y)
  if m = 0 then ⟨0, 0⟩ else ⟨v.x / m, v.y / m⟩

/-- The `vec3` branch of `normalize` (src/src/ops.ts lines 547-549). -/
def normalize3 (sqrtF : ℚ → ℚ) (v : Vec3) : Vec3 :=
  let m := sqrtF (v.x * v.x + v.y * v.y + v.z * v.z)
  if m = 0 then ⟨0, 0, 0⟩ else ⟨v.x / m, v.y / m, v.z / m⟩

/-- The `vec4` branch of `normalize` (src/src/ops.ts lines 544-546). -/
def normalize4 (sqrtF : ℚ → ℚ) (v : Vec4) : Vec4 :=
  let m := sqrtF (v.x * v.x + v.y * v.y + v.z * v.z + v.w * v.w)
  if m = 0 then ⟨0, 0, 0, 0⟩ else ⟨v.x / m, v.y / m, v.z / m, v.w / m⟩

/-- The `normalize` dispatcher of src/src/ops.ts (lines 539-558); its
non-vector error branch is unreachable in this typed model. -/
def normalize (sqrtF : ℚ → ℚ) (v : AnyVector) : AnyVector :=
  match v with
  | .v2 v => .v2 (normalize2 sqrtF v)
  | .v3 v => .v3 (normalize3 sqrtF v)
  | .v4 v => .v4 (normalize4 sqrtF v)

/-- The `magnitude` of src/src/ops.ts (lines 513-525): the square root of
the sum of squared components. -/
def magnitude (sqrtF : ℚ → ℚ) (v : AnyVector) : ℚ :=
  match v with
  | .v4 v => sqrtF (v.x * v.x + v.y * v.y + v.z * v.z + v.w * v.w)
  | .v3 v => sqrtF (v.x * v.x + v.y * v.y + v.z * v.z)
  | .v2 v => sqrtF (v.x * v.x + v.y * v.y)

/-- Scaling a vector of any shape by a number, via the scalar branch of
`mult` for the matching shape (used to state the spec's phrase "`v` scaled
by `1/magnitude(v)`"). -/
def scaleAny (v : AnyVector) (n : ℚ) : AnyVector :=
  match v with
  | .v2 v => .v2 (mulVN2 v n)
  | .v3 v => .v3 (mulVN3 v n)
  | .v4 v => .v4 (mulVN4 v n)

/-- Model of the JavaScript `String.prototype.toLowerCase()` call of
`rotationMatrix` (src/src/init/canvas.ts line 364): lowercases each
character (identical to the platform behaviour on the ASCII axis names this
switch compares against). -/
def toLowerStr (s : String) : String :=
  ⟨s.data.map Char.toLower⟩

/-- The axis argument of `rotationMatrix`: a string or a `vec3`
(src/src/init/canvas.ts line 351). -/
inductive RotAxis where
  | str (s : String)
  | axis (v : Vec3)

/-- The `rotationMatrix` of src/src/init/canvas.ts (lines 351-403).
`Math.sin` and `Math.cos` are passed in as `sinF`/`cosF` (the source
computes `sin`/`cos` once from `radians` before dispatching on the axis);
`sqrtF` feeds the `normalize` call of the arbitrary-axis branch.  The
string axis is lowered with `toLowerCase` before the three-way switch; a
string that matches none of `x`/`y`/`z` falls through to the error. -/
def rotationMatrix (sqrtF sinF cosF : ℚ → ℚ) (axis : RotAxis) (radians : ℚ) :
    Except String Mat4 :=
  let sin := sinF radians
  let cos := cosF radians
  match axis with
  | .str s =>
      let ls := toLowerStr s
      if ls = "x" then
        .ok ⟨⟨1, 0, 0, 0⟩, ⟨0, cos, sin, 0⟩, ⟨0, -sin, cos, 0⟩, ⟨0, 0, 0, 1⟩⟩
      else if ls = "y" then
        .ok ⟨⟨cos, 0, -sin, 0⟩, ⟨0, 1, 0, 0⟩, ⟨sin, 0, cos, 0⟩, ⟨0, 0, 0, 1⟩⟩
      else if ls = "z" then
        .ok ⟨⟨cos, sin, 0, 0⟩, ⟨-sin, cos, 0, 0⟩, ⟨0, 0, 1, 0⟩, ⟨0, 0, 0, 1⟩⟩
      else
        .error "Invalid arguments passed to rotationMatrix: expected an axis (x, y, z, or a vec3) and an angle."
  | .axis v =>
      let nv := normalize3 sqrtF v
      let omc := 1 - cos
      .ok ⟨⟨nv.x * nv.x * omc + cos, nv.x * nv.y * omc + nv.z * sin,
            nv.x * nv.z * omc - nv.y * sin, 0⟩,
           ⟨nv.x * nv.y * omc - nv.z * sin, nv.y * nv.y * omc + cos,
            nv.y * nv.z * omc + nv.x * sin, 0⟩,
           ⟨nv.x * nv.z * omc + nv.y * sin, nv.y * nv.z * omc - nv.x * sin,
            nv.z * nv.z * omc + cos, 0⟩,
           ⟨0, 0, 0, 1⟩⟩

/-- C1: the claim states `mult(translationMatrix(1,2,3), vec4(0,0,0,1))`
equals `vec4(1,2,3,1)`.  Evaluating the embedded code at exactly this input
shows it returns `vec4(0,0,0,1)` instead — the `mult` of src/src/ops.ts
dots each *column* of the column-major matrix with the vector (treating the
storage as row-major), so the translation column never reaches the result —
and in particular the claimed value `vec4(1,2,3,1)` is not produced. -/
theorem mult_translation_origin_eval :
    mult (.mat (.m4 (translationMatrix 1 2 3))) (.vec (.v4 ⟨0, 0, 0, 1⟩))
      = .ok (.vec (.v4 ⟨0, 0, 0, 1⟩)) ∧
    mult (.mat (.m4 (translationMatrix 1 2 3))) (.vec (.v4 ⟨0, 0, 0, 1⟩))
      ≠ .ok (.vec (.v4 ⟨1, 2, 3, 1⟩)) := by
  exact ⟨by with_unfolding_all decide, by with_unfolding_all decide⟩

/-- C2: the claim states `mult(m, v)[i] = Σ_k m[k][i] * v[k]` for every
matrix/vector pair of matching size.  At `m = mat2(0,1,0,0)` (columns
`(0,1)` and `(0,0)`) and `v = vec2(0,1)` the code returns `vec2(1,0)`
(it computes `Σ_k m[i][k] * v[k]`, the transpose's action), while the
claimed formula gives `vec2(0,0)`. -/
theorem mult_matvec_eval :
    mult (.mat (.m2 ⟨⟨0, 1⟩, ⟨0, 0⟩⟩)) (.vec (.v2 ⟨0, 1⟩))
      = .ok (.vec (.v2 ⟨1, 0⟩)) ∧
    specMultMatVec2 ⟨⟨0, 1⟩, ⟨0, 0⟩⟩ ⟨0, 1⟩ = ⟨0, 0⟩ ∧
    (⟨1, 0⟩ : Vec2) ≠ ⟨0, 0⟩ := by
  refine ⟨by with_unfolding_all decide, by with_unfolding_all decide, by with_unfolding_all decide⟩

/-- C3: the claim states `mult(a, b)[j][i] = Σ_k a[k][i] * b[j][k]`
(the product `a·b` under column-major reading).  At
`a = mat2(1,2,3,4)` and `b = mat2(0,1,0,0)` the code returns the matrix
with columns `(0,1)` and `(0,3)` — which is `b·a` under the column-major
reading, i.e. `Σ_k a[j][k] * b[k][i]` — while the claimed formula gives
columns `(3,4)` and `(0,0)`. -/
theorem mult_matmat_eval :
    mult (.mat (.m2 ⟨⟨1, 2⟩, ⟨3, 4⟩⟩)) (.mat (.m2 ⟨⟨0, 1⟩, ⟨0, 0⟩⟩))
      = .ok (.mat (.m2 ⟨⟨0, 1⟩, ⟨0, 3⟩⟩)) ∧
    specMultMat2 ⟨⟨1, 2⟩, ⟨3, 4⟩⟩ ⟨⟨0, 1⟩, ⟨0, 0⟩⟩ = ⟨⟨3, 4⟩, ⟨0, 0⟩⟩ ∧
    (⟨⟨0, 1⟩, ⟨0, 3⟩⟩ : Mat2) ≠ ⟨⟨3, 4⟩, ⟨0, 0⟩⟩ := by
  refine ⟨by with_unfolding_all decide, by with_unfolding_all decide, by with_unfolding_all decide⟩

/-- C4: the claim states `det` returns the mathematical determinant for all
three shapes.  For the 4×4 matrix with columns `(0,0,0,1)`, `(0,1,0,0)`,
`(0,0,1,0)`, `(1,0,0,0)` (a permutation matrix of determinant `-1`), the
code returns `0`: the 4×4 branch of `det` computes `t = cross(c, b)` where
the decomposition it cites — and the `inverse` in the same file — use
`cross(c, d)`. -/
theorem det4_eval :
    det (.m4 ⟨⟨0, 0, 0, 1⟩, ⟨0, 1, 0, 0⟩, ⟨0, 0, 1, 0⟩, ⟨1, 0, 0, 0⟩⟩) = 0 ∧
    specDet4 ⟨⟨0, 0, 0, 1⟩, ⟨0, 1, 0, 0⟩, ⟨0, 0, 1, 0⟩, ⟨1, 0, 0, 0⟩⟩ = -1 := by
  exact ⟨by with_unfolding_all decide, by with_unfolding_all decide⟩

/-- C5: for every matrix of any of the three shapes whose mathematical
determinant is nonzero, `mult(m, inverse(m))` is the identity matrix of the
same shape, exactly, over exact rational arithmetic.  (The `mult` of
src/src/ops.ts actually evaluates the product of its operands in reversed
order under the column-major reading, but `inverse(m)·m = m·inverse(m) = I`,
so the claimed identity still holds.) -/
theorem mult_inverse_eq_identity (m : AnyMatrix) (h : specDet m ≠ 0) :
    mult (.mat m) (.mat (inverse m)) = .ok (.mat (idLike m)) := by
  cases m with
  | m2 mm =>
      obtain ⟨⟨a, b⟩, ⟨c, d⟩⟩ := mm
      simp only [specDet, specDet2] at h
      have hD : det (.m2 ⟨⟨a, b⟩, ⟨c, d⟩⟩) ≠ 0 := by
        simp only [det]
        exact h
      have hk := mul_one_div_cancel hD
      simp only [det] at hk
      simp only [inverse, det, mult, idLike, mat2Id, Except.ok.injEq, MVal.mat.injEq,
        AnyMatrix.m2.injEq, Mat2.mk.injEq, Vec2.mk.injEq]
      refine ⟨⟨?_, ?_⟩, ⟨?_, ?_⟩⟩ <;> first | ring1 | linear_combination hk
  | m3 mm =>
      obtain ⟨⟨a0, a1, a2⟩, ⟨b0, b1, b2⟩, ⟨c0, c1, c2⟩⟩ := mm
      simp only [specDet, specDet3] at h
      have hD : dot3 (cross3 ⟨a0, a1, a2⟩ ⟨b0, b1, b2⟩) ⟨c0, c1, c2⟩ ≠ 0 := by
        simp only [dot3, cross3]
        intro h0
        exact h (by linear_combination h0)
      have hk := mul_one_div_cancel hD
      simp only [dot3, cross3] at hk
      simp only [inverse, mult, idLike, mat3Id, cross3, dot3, Except.ok.injEq, MVal.mat.injEq,
        AnyMatrix.m3.injEq, Mat3.mk.injEq, Vec3.mk.injEq]
      refine ⟨⟨?_, ?_, ?_⟩, ⟨?_, ?_, ?_⟩, ⟨?_, ?_, ?_⟩⟩ <;> first | ring1 | linear_combination hk
  | m4 mm =>
      obtain ⟨⟨a0, a1, a2, a3⟩, ⟨b0, b1, b2, b3⟩, ⟨c0, c1, c2, c3⟩, ⟨d0, d1, d2, d3⟩⟩ := mm
      simp only [specDet, specDet4, specDet3] at h
      have hD :
          dot3 (cross3 ⟨a0, a1, a2⟩ ⟨b0, b1, b2⟩)
              (sub3 (mulVN3 ⟨c0, c1, c2⟩ d3) (mulVN3 ⟨d0, d1, d2⟩ c3)) +
            dot3 (cross3 ⟨c0, c1, c2⟩ ⟨d0, d1, d2⟩)
              (sub3 (mulVN3 ⟨a0, a1, a2⟩ b3) (mulVN3 ⟨b0, b1, b2⟩ a3)) ≠ 0 := by
        simp only [dot3, cross3, sub3, mulVN3]
        intro h0
        exact h (by linear_combination h0)
      have hk := mul_one_div_cancel hD
      simp only [dot3, cross3, sub3, mulVN3] at hk
      simp only [inverse, mult, idLike, mat4Id, vec3ofVec4, cross3, dot3, sub3, add3, mulVN3,
        Except.ok.injEq, MVal.mat.injEq, AnyMatrix.m4.injEq, Mat4.mk.injEq, Vec4.mk.injEq]
      refine ⟨⟨?_, ?_, ?_, ?_⟩, ⟨?_, ?_, ?_, ?_⟩, ⟨?_, ?_, ?_, ?_⟩, ⟨?_, ?_, ?_, ?_⟩⟩ <;>
        first | ring1 | linear_combination hk

/-- Witness for C5 at a concrete non-singular 4×4 matrix. -/
theorem mult_inverse_eq_identity_witness :
    specDet (.m4 ⟨⟨1, 0, 0, 0⟩, ⟨1, 1, 0, 0⟩, ⟨0, 1, 1, 0⟩, ⟨0, 0, 1, 1⟩⟩) ≠ 0 ∧
    mult (.mat (.m4 ⟨⟨1, 0, 0, 0⟩, ⟨1, 1, 0, 0⟩, ⟨0, 1, 1, 0⟩, ⟨0, 0, 1, 1⟩⟩))
        (.mat (inverse (.m4 ⟨⟨1, 0, 0, 0⟩, ⟨1, 1, 0, 0⟩, ⟨0, 1, 1, 0⟩, ⟨0, 0, 1, 1⟩⟩)))
      = .ok (.mat (idLike (.m4 ⟨⟨1, 0, 0, 0⟩, ⟨1, 1, 0, 0⟩, ⟨0, 1, 1, 0⟩, ⟨0, 0, 1, 1⟩⟩))) :=
  ⟨by with_unfolding_all decide,
   mult_inverse_eq_identity _ (by with_unfolding_all decide)⟩
/-- C6: for each vector shape, `normalize` maps the all-zero vector to the
all-zero vector of the same shape (taking the explicit zero-magnitude
branch, so no division happens — the exact-arithmetic counterpart of "no
NaN/Infinity and no error"), and any vector of nonzero magnitude to the
vector scaled by `1/magnitude(v)`.  `sqrtF` models `Math.sqrt`; the real
square root satisfies the hypothesis `sqrtF 0 = 0`. -/
theorem normalize_spec_thm (sqrtF : ℚ → ℚ) (h0 : sqrtF 0 = 0) :
    (normalize sqrtF (.v2 ⟨0, 0⟩) = .v2 ⟨0, 0⟩ ∧
     normalize sqrtF (.v3 ⟨0, 0, 0⟩) = .v3 ⟨0, 0, 0⟩ ∧
     normalize sqrtF (.v4 ⟨0, 0, 0, 0⟩) = .v4 ⟨0, 0, 0, 0⟩) ∧
    ∀ v : AnyVector, magnitude sqrtF v ≠ 0 →
      normalize sqrtF v = scaleAny v (1 / magnitude sqrtF v) := by
  constructor
  · refine ⟨?_, ?_, ?_⟩
    · simp [MV.normalize, normalize2, h0]
    · simp [MV.normalize, normalize3, h0]
    · simp [MV.normalize, normalize4, h0]
  · intro v hm
    cases v with
    | v2 v =>
        simp only [magnitude] at hm
        simp only [MV.normalize, normalize2, scaleAny, mulVN2, magnitude, if_neg hm]
        simp [div_eq_mul_inv]
    | v3 v =>
        simp only [magnitude] at hm
        simp only [MV.normalize, normalize3, scaleAny, mulVN3, magnitude, if_neg hm]
        simp [div_eq_mul_inv]
    | v4 v =>
        simp only [magnitude] at hm
        simp only [MV.normalize, normalize4, scaleAny, mulVN4, magnitude, if_neg hm]
        simp [div_eq_mul_inv]

/-- Witness for C6: with the identity function standing in for the square
root (which does satisfy `sqrtF 0 = 0`), the vector `(3, 4)` has nonzero
magnitude and `normalize` scales it by the reciprocal of that magnitude. -/
theorem normalize_spec_thm_witness :
    (fun q : ℚ => q) 0 = 0 ∧
    magnitude (fun q : ℚ => q) (.v2 ⟨3, 4⟩) ≠ 0 ∧
    normalize (fun q : ℚ => q) (.v2 ⟨3, 4⟩)
      = scaleAny (.v2 ⟨3, 4⟩) (1 / magnitude (fun q : ℚ => q) (.v2 ⟨3, 4⟩)) :=
  ⟨rfl, by with_unfolding_all decide,
   (normalize_spec_thm (fun q => q) rfl).2 _ (by with_unfolding_all decide)⟩

/-- C7: `mix(u, v, s)` is `(1 - c)·u + c·v` with `c = clamp01 s`, for two
numbers and for two vectors of each matching shape (the vector result is
expressed with the library's own scalar-multiply and add branches); and the
two concrete scenarios: `mix(vec2(0,0), vec2(10,10), 0.5) = vec2(5,5)` and
`mix(0, 10, 2) = 10` (the out-of-range ratio is clamped to 1). -/
theorem mix_spec_thm :
    (∀ u v s : ℚ, mix (.num u) (.num v) s
        = .ok (.num ((1 - clamp01 s) * u + clamp01 s * v))) ∧
    (∀ (u v : Vec2) (s : ℚ), mix (.vec (.v2 u)) (.vec (.v2 v)) s
        = .ok (.vec (.v2 (add2 (mulVN2 u (1 - clamp01 s)) (mulVN2 v (clamp01 s)))))) ∧
    (∀ (u v : Vec3) (s : ℚ), mix (.vec (.v3 u)) (.vec (.v3 v)) s
        = .ok (.vec (.v3 (add3 (mulVN3 u (1 - clamp01 s)) (mulVN3 v (clamp01 s)))))) ∧
    (∀ (u v : Vec4) (s : ℚ), mix (.vec (.v4 u)) (.vec (.v4 v)) s
        = .ok (.vec (.v4 (add4 (mulVN4 u (1 - clamp01 s)) (mulVN4 v (clamp01 s)))))) ∧
    mix (.vec (.v2 ⟨0, 0⟩)) (.vec (.v2 ⟨10, 10⟩)) (1 / 2)
      = .ok (.vec (.v2 ⟨5, 5⟩)) ∧
    mix (.num 0) (.num 10) 2 = .ok (.num 10) := by
  refine ⟨?_, ?_, ?_, ?_, ?_, ?_⟩
  · intro u v s
    simp only [mix, Except.ok.injEq, MVal.num.injEq]
  · intro u v s
    simp only [mix, add2, mulVN2, Except.ok.injEq, MVal.vec.injEq, AnyVector.v2.injEq,
      Vec2.mk.injEq]
    constructor <;> ring1
  · intro u v s
    simp only [mix, add3, mulVN3, Except.ok.injEq, MVal.vec.injEq, AnyVector.v3.injEq,
      Vec3.mk.injEq]
    refine ⟨?_, ?_, ?_⟩ <;> ring1
  · intro u v s
    simp only [mix, add4, mulVN4, Except.ok.injEq, MVal.vec.injEq, AnyVector.v4.injEq,
      Vec4.mk.injEq]
    refine ⟨?_, ?_, ?_, ?_⟩ <;> ring1
  · with_unfolding_all decide
  · with_unfolding_all decide

/-- C8 counterexample: the single argument `[]` (one empty numeric array)
is neither the zero-argument call nor the single-number form, and it
flattens to zero values — fewer than four — yet `vec4` succeeds with the
zero vector instead of throwing: its first branch tests
`values.length == 0` where `vec2`/`vec3` test `args.length == 0`. -/
theorem vec4_zero_values_counterexample :
    [Arg.arr []].length ≠ 0 ∧
    ¬([Arg.arr []].length = 1 ∧ (([Arg.arr []]).headD (.num 0)).isNum = true) ∧
    (flattenArgs [Arg.arr []]).length < 4 ∧
    vec4FromArgs [Arg.arr []] = .ok ⟨0, 0, 0, 0⟩ := by
  exact ⟨by decide, by decide, by decide, by with_unfolding_all decide⟩

/-- C8 (amended): for a call that is not the zero-argument form and not the
single-number form, each constructor takes the first N flattened values
when at least N are available (silently ignoring extras), and errors when
fewer than N are available — except that `vec4` applied to arguments that
flatten to zero values returns the zero vector instead of erroring.  The
final conjunct is the concrete flattening example
`vec3(vec2(1,2), 3) = vec3(1,2,3)`. -/
theorem vec_ctor_flatten_amended (args : List Arg)
    (h1 : ¬args.length = 0)
    (h2 : ¬(args.length = 1 ∧ (args.headD (.num 0)).isNum = true)) :
    (2 ≤ (flattenArgs args).length →
      vec2FromArgs args = .ok ⟨(flattenArgs args).getD 0 0, (flattenArgs args).getD 1 0⟩) ∧
    ((flattenArgs args).length < 2 → isErr (vec2FromArgs args) = true) ∧
    (3 ≤ (flattenArgs args).length →
      vec3FromArgs args = .ok ⟨(flattenArgs args).getD 0 0, (flattenArgs args).getD 1 0,
        (flattenArgs args).getD 2 0⟩) ∧
    ((flattenArgs args).length < 3 → isErr (vec3FromArgs args) = true) ∧
    (4 ≤ (flattenArgs args).length →
      vec4FromArgs args = .ok ⟨(flattenArgs args).getD 0 0, (flattenArgs args).getD 1 0,
        (flattenArgs args).getD 2 0, (flattenArgs args).getD 3 0⟩) ∧
    (0 < (flattenArgs args).length → (flattenArgs args).length < 4 →
      isErr (vec4FromArgs args) = true) ∧
    ((flattenArgs args).length = 0 → vec4FromArgs args = .ok ⟨0, 0, 0, 0⟩) ∧
    vec3FromArgs [Arg.avec (.v2 ⟨1, 2⟩), Arg.num 3] = .ok ⟨1, 2, 3⟩ := by
  refine ⟨?_, ?_, ?_, ?_, ?_, ?_, ?_, ?_⟩
  · intro hlen
    simp only [vec2FromArgs, if_neg h1, if_neg h2, if_pos hlen]
  · intro hlen
    simp only [vec2FromArgs, if_neg h1, if_neg h2, if_neg (by omega : ¬2 ≤ (flattenArgs args).length)]
    rfl
  · intro hlen
    simp only [vec3FromArgs, if_neg h1, if_neg h2, if_pos hlen]
  · intro hlen
    simp only [vec3FromArgs, if_neg h1, if_neg h2, if_neg (by omega : ¬3 ≤ (flattenArgs args).length)]
    rfl
  · intro hlen
    simp only [vec4FromArgs, if_neg (by omega : ¬(flattenArgs args).length = 0), if_neg h2,
      if_pos hlen]
  · intro hpos hlen
    simp only [vec4FromArgs, if_neg (by omega : ¬(flattenArgs args).length = 0), if_neg h2,
      if_neg (by omega : ¬4 ≤ (flattenArgs args).length)]
    rfl
  · intro hlen
    simp only [vec4FromArgs, if_pos hlen]
  · with_unfolding_all decide

/-- Witness for C8 at the concrete call `vec3(vec2(1,2), 3)`: two
arguments, the first not a number, flattening to three values. -/
theorem vec_ctor_flatten_amended_witness :
    ¬([Arg.avec (.v2 ⟨1, 2⟩), Arg.num 3].length = 0) ∧
    ¬([Arg.avec (.v2 ⟨1, 2⟩), Arg.num 3].length = 1 ∧
        (([Arg.avec (.v2 ⟨1, 2⟩), Arg.num 3]).headD (.num 0)).isNum = true) ∧
    vec3FromArgs [Arg.avec (.v2 ⟨1, 2⟩), Arg.num 3]
      = .ok ⟨(flattenArgs [Arg.avec (.v2 ⟨1, 2⟩), Arg.num 3]).getD 0 0,
             (flattenArgs [Arg.avec (.v2 ⟨1, 2⟩), Arg.num 3]).getD 1 0,
             (flattenArgs [Arg.avec (.v2 ⟨1, 2⟩), Arg.num 3]).getD 2 0⟩ :=
  ⟨by decide, by decide,
   (vec_ctor_flatten_amended _ (by decide) (by decide)).2.2.1 (by decide)⟩

/-- C9: `rotationMatrix` lowercases a string axis before dispatching, so
the uppercase axes `X`, `Y`, `Z` produce exactly the same matrix as their
lowercase counterparts for every angle (and every model of sin/cos/sqrt),
and none of them takes the invalid-axis error path. -/
theorem rotation_axis_case_insensitive (sqrtF sinF cosF : ℚ → ℚ) (radians : ℚ) :
    rotationMatrix sqrtF sinF cosF (.str "X") radians
      = rotationMatrix sqrtF sinF cosF (.str "x") radians ∧
    rotationMatrix sqrtF sinF cosF (.str "Y") radians
      = rotationMatrix sqrtF sinF cosF (.str "y") radians ∧
    rotationMatrix sqrtF sinF cosF (.str "Z") radians
      = rotationMatrix sqrtF sinF cosF (.str "z") radians ∧
    isErr (rotationMatrix sqrtF sinF cosF (.str "X") radians) = false ∧
    isErr (rotationMatrix sqrtF sinF cosF (.str "Y") radians) = false ∧
    isErr (rotationMatrix sqrtF sinF cosF (.str "Z") radians) = false := by
  have hX : toLowerStr "X" = "x" := by decide
  have hY : toLowerStr "Y" = "y" := by decide
  have hZ : toLowerStr "Z" = "z" := by decide
  have hx : toLowerStr "x" = "x" := by decide
  have hy : toLowerStr "y" = "y" := by decide
  have hz : toLowerStr "z" = "z" := by decide
  refine ⟨?_, ?_, ?_, ?_, ?_, ?_⟩
  · simp only [rotationMatrix, hX, hx]
  · simp only [rotationMatrix, hY, hy]
  · simp only [rotationMatrix, hZ, hz]
  · simp [rotationMatrix, hX, isErr]
  · simp [rotationMatrix, hY, isErr]
  · simp [rotationMatrix, hZ, isErr]

/-- C10: the single-scalar broadcast applies only when the lone argument is
literally a number: `vecN(n)` broadcasts `n` to all components, while
`vecN([n])` — a single one-element numeric array — is an error rather than
a broadcast, for all three constructors. -/
theorem vec_broadcast_only_literal_number (n : ℚ) :
    vec2FromArgs [.num n] = .ok ⟨n, n⟩ ∧
    isErr (vec2FromArgs [.arr [n]]) = true ∧
    vec3FromArgs [.num n] = .ok ⟨n, n, n⟩ ∧
    isErr (vec3FromArgs [.arr [n]]) = true ∧
    vec4FromArgs [.num n] = .ok ⟨n, n, n, n⟩ ∧
    isErr (vec4FromArgs [.arr [n]]) = true :=
  ⟨rfl, rfl, rfl, rfl, rfl, rfl⟩

end MV
